import Mathlib

/-!
# The interposed `sysinfo` of `docker/wrapper.c`

A shallow embedding of the single function of `docker/wrapper.c` and the
properties of it that the specification states.

The C function

```c
int sysinfo(struct sysinfo *info){
    void *pt=NULL;
    typedef int (*real_sysinfo)(struct sysinfo *info);
    pt = dlsym(RTLD_NEXT,"sysinfo");
    int real_return_val=((real_sysinfo)pt)(info);
    if( info->totalram < 1000l * 1000l * 1000l * 2l){
        info->totalram = 1000l * 1000l * 1000l * 2l ;
    }
    return real_return_val;
}
```

is embedded by explicit state passing: the record behind `info` is a value
that the delegate and the shim transform, the status is returned next to it,
and the one step of the function that has no defined result in C, the call
through a null function pointer, is a fault in the `Except` monad.
Integers are those of the LP64 data model of x86-64 Linux (`long` and
`unsigned long` are 64 bits wide).

The function is embedded twice. `sysinfo` passes only the record, which is all
the function itself reads and writes. `sysinfo_mem` also passes the memory of
the process, which `dlsym` and the delegate may read and write and in which a
function that kept state between its invocations would keep it;
`sysinfo_mem_erase` shows that forgetting the memory turns the second into the
first.
-/

namespace Wrapper

/-! ## Machine integers -/

/-- Width in bits of `long` and `unsigned long`. -/
def LONG_BITS : Nat := 64

/-- Two's complement wrap of an integer into the range of `long`. -/
def wrapLong (x : Int) : Int :=
  (x + 2 ^ (LONG_BITS - 1)) % 2 ^ LONG_BITS - 2 ^ (LONG_BITS - 1)

/-- Multiplication of two `long` values. -/
def mulLong (a b : Int) : Int := wrapLong (a * b)

/-- Conversion of a `long` to `unsigned long`, as the usual arithmetic
conversions do for the comparison and the assignment to `totalram`. -/
def toULong (x : Int) : Nat := (x % 2 ^ LONG_BITS).toNat

/-- The constant `1000l * 1000l * 1000l * 2l` of the source, evaluated left to
right in `long` and converted to the type of `totalram`. -/
def FLOOR : Nat := toULong (mulLong (mulLong (mulLong 1000 1000) 1000) 2)

/-! ## The data model -/

/-- Modelled from the spec: the declaration of `struct sysinfo` is in the
system header `sys/sysinfo.h`, which the source includes and which is not part
of the repository. The fields are those the specification's claims name for the
memory-info record; `loads` is the array of three load averages, and the
padding at the end of the structure carries no information. -/
structure Sysinfo where
  uptime : Int
  loads : Nat × Nat × Nat
  totalram : Nat
  freeram : Nat
  sharedram : Nat
  bufferram : Nat
  totalswap : Nat
  freeswap : Nat
  procs : Nat
  totalhigh : Nat
  freehigh : Nat
  mem_unit : Nat
  deriving DecidableEq

/-- What can go wrong in the shim where C defines no result. -/
inductive Fault where
  /-- Control was transferred through a null function pointer. -/
  | nullCall
  deriving DecidableEq

/-- The type `int (*real_sysinfo)(struct sysinfo *info)`: a function that is
given the record behind `info` and gives back its status and the record as it
left it, unless it faults. -/
abbrev real_sysinfo := Sysinfo → Except Fault (Int × Sysinfo)

/-- The pseudo-handles of `dlfcn.h`. -/
inductive Handle where
  | RTLD_DEFAULT
  | RTLD_NEXT
  deriving DecidableEq

/-- The dynamic linker's `dlsym` as the shim sees it: for a handle and a
symbol name, the address of the function found, or `none` for `NULL`. -/
abbrev Dlsym := Handle → String → Option real_sysinfo

/-- The call `((real_sysinfo)pt)(info)` through the pointer `pt`. The source
makes it whatever `pt` is; through `NULL` it has no defined result. -/
def callPtr (pt : Option real_sysinfo) (info : Sysinfo) :
    Except Fault (Int × Sysinfo) :=
  match pt with
  | none => Except.error Fault.nullCall
  | some f => f info

/-- The condition of the `if` of the source:
`info->totalram < 1000l * 1000l * 1000l * 2l`. -/
def belowFloor (info : Sysinfo) : Bool := decide (info.totalram < FLOOR)

/-- The `if` statement of the source: `totalram` is overwritten with the
constant when it is below it. -/
def patch (info : Sysinfo) : Sysinfo :=
  if belowFloor info then { info with totalram := FLOOR } else info

/-- The function `sysinfo` of `docker/wrapper.c`. -/
def sysinfo (dlsym : Dlsym) (info : Sysinfo) : Except Fault (Int × Sysinfo) :=
  -- void *pt=NULL; pt = dlsym(RTLD_NEXT,"sysinfo");
  let pt : Option real_sysinfo := dlsym Handle.RTLD_NEXT "sysinfo"
  -- int real_return_val=((real_sysinfo)pt)(info);
  match callPtr pt info with
  | Except.error e => Except.error e
  | Except.ok (real_return_val, info) =>
    -- if( info->totalram < ...){ info->totalram = ...; }
    let info := patch info
    -- return real_return_val;
    Except.ok (real_return_val, info)

/-! ## The function in the memory of its process -/

/-- The memory of the process outside the caller's record and outside the
automatic variables of the running call: a word at every address. Objects of
static storage, among them whatever a function retains from one invocation to
the next, live here. -/
abbrev Memory := Nat → Nat

/-- The type `int (*real_sysinfo)(struct sysinfo *info)` with the memory of the
process passed along: the function called may read and write it. -/
abbrev real_sysinfo_mem := Sysinfo → Memory → Except Fault (Int × Sysinfo × Memory)

/-- The linker's `dlsym` with the memory of the process passed along: the
lookup may depend on it and may write to it (its error state). -/
abbrev Dlsym_mem := Handle → String → Memory → Option real_sysinfo_mem × Memory

/-- The call `((real_sysinfo)pt)(info)` in the memory `mem`. -/
def callPtr_mem (pt : Option real_sysinfo_mem) (info : Sysinfo) (mem : Memory) :
    Except Fault (Int × Sysinfo × Memory) :=
  match pt with
  | none => Except.error Fault.nullCall
  | some f => f info mem

/-- The function `sysinfo` of `docker/wrapper.c` in the memory of its process.
Its variables `pt` and `real_return_val` are automatic and the file declares
no object of static storage, so the function itself reads and writes nothing
in `mem`: it hands it to `dlsym` and to the delegate and returns it as they
left it. -/
def sysinfo_mem (dlsym : Dlsym_mem) (info : Sysinfo) (mem : Memory) :
    Except Fault (Int × Sysinfo × Memory) :=
  -- void *pt=NULL; pt = dlsym(RTLD_NEXT,"sysinfo");
  match dlsym Handle.RTLD_NEXT "sysinfo" mem with
  | (pt, mem) =>
    -- int real_return_val=((real_sysinfo)pt)(info);
    match callPtr_mem pt info mem with
    | Except.error e => Except.error e
    | Except.ok (real_return_val, info, mem) =>
      -- if( info->totalram < ...){ info->totalram = ...; }
      let info := patch info
      -- return real_return_val;
      Except.ok (real_return_val, info, mem)

/-- A result without the memory it was reached in. -/
def eraseResult (r : Except Fault (Int × Sysinfo × Memory)) : Except Fault (Int × Sysinfo) :=
  match r with
  | Except.error e => Except.error e
  | Except.ok (ret, out, _) => Except.ok (ret, out)

/-- A delegate as it behaves from the memory `mem`. -/
def eraseReal (f : real_sysinfo_mem) (mem : Memory) : real_sysinfo :=
  fun info => eraseResult (f info mem)

/-- A linker as it behaves from the memory `mem`. -/
def eraseDlsym (dlsym : Dlsym_mem) (mem : Memory) : Dlsym :=
  fun h name =>
    match dlsym h name mem with
    | (none, _) => none
    | (some f, mem') => some (eraseReal f mem')

/-! ## Concrete inputs -/

/-- A record as a caller allocates it: all fields zero. -/
def zeroInfo : Sysinfo :=
  { uptime := 0, loads := (0, 0, 0), totalram := 0, freeram := 0, sharedram := 0,
    bufferram := 0, totalswap := 0, freeswap := 0, procs := 0, totalhigh := 0,
    freehigh := 0, mem_unit := 0 }

/-- A host whose genuine call reports `total` units of `unit` bytes. -/
def hostInfo (total unit : Nat) : Sysinfo :=
  { uptime := 86400, loads := (2048, 1024, 512), totalram := total,
    freeram := total / 2, sharedram := 7, bufferram := 11, totalswap := 13,
    freeswap := 5, procs := 42, totalhigh := 0, freehigh := 0, mem_unit := unit }

/-- A genuine `sysinfo` that succeeds and fills the record in. -/
def realOk (total unit : Nat) : real_sysinfo :=
  fun _ => Except.ok (0, hostInfo total unit)

/-- A genuine `sysinfo` that fails with `-1` and leaves the record as it got
it. -/
def realFail : real_sysinfo :=
  fun info => Except.ok (-1, info)

/-- A linker that finds `f` as the next definition of `sysinfo`. -/
def resolves (f : real_sysinfo) : Dlsym :=
  fun h name =>
    match h with
    | Handle.RTLD_NEXT => if name = "sysinfo" then some f else none
    | Handle.RTLD_DEFAULT => none

/-- A linker that finds no further definition of any symbol. -/
def unresolved : Dlsym := fun _ _ => none

/-- A memory that holds zero everywhere. -/
def zeroMemory : Memory := fun _ => 0

/-- The memory after one more call of `realCounting`: the word at address 0 is
incremented. -/
def bump (mem : Memory) : Memory :=
  fun a => if a = 0 then mem 0 + 1 else mem a

/-- A genuine `sysinfo` with state of its own: it succeeds, reports 512,000,000
bytes and counts its calls in the word at address 0. -/
def realCounting : real_sysinfo_mem :=
  fun _ mem => Except.ok (0, hostInfo 512000000 1, bump mem)

/-- A linker that finds `f` as the next definition of `sysinfo` and leaves the
memory as it is. -/
def resolves_mem (f : real_sysinfo_mem) : Dlsym_mem :=
  fun h name mem =>
    match h with
    | Handle.RTLD_NEXT => (if name = "sysinfo" then some f else none, mem)
    | Handle.RTLD_DEFAULT => (none, mem)

/-! ## General lemmas -/

/-- The constant of the source does not overflow `long`: it is two thousand
million. -/
theorem FLOOR_eq : FLOOR = 2000000000 := by
  decide

theorem belowFloor_iff (r : Sysinfo) : belowFloor r = true ↔ r.totalram < 2000000000 := by
  simp [belowFloor, FLOOR_eq]

theorem patch_below (r : Sysinfo) (h : r.totalram < 2000000000) :
    patch r = { r with totalram := 2000000000 } := by
  have hb : belowFloor r = true := (belowFloor_iff r).2 h
  simp [patch, hb, FLOOR_eq]

theorem patch_above (r : Sysinfo) (h : 2000000000 ≤ r.totalram) : patch r = r := by
  have hb : ¬ belowFloor r = true := fun hb => absurd ((belowFloor_iff r).1 hb) (by omega)
  simp [patch, hb]

theorem patch_totalram (r : Sysinfo) : (patch r).totalram = max r.totalram 2000000000 := by
  rcases Nat.lt_or_ge r.totalram 2000000000 with h | h
  · rw [patch_below r h, Nat.max_eq_right (Nat.le_of_lt h)]
  · rw [patch_above r h, Nat.max_eq_left h]

/-- The patch touches no field but `totalram`. -/
theorem patch_frame (r : Sysinfo) : patch r = { r with totalram := (patch r).totalram } := by
  rcases Nat.lt_or_ge r.totalram 2000000000 with h | h
  · rw [patch_below r h]
  · rw [patch_above r h]

theorem patch_patch (r : Sysinfo) : patch (patch r) = patch r := by
  apply patch_above
  rw [patch_totalram]
  exact Nat.le_max_right _ _

/-- With the delegate resolved, the shim is the delegate followed by the
patch. -/
theorem sysinfo_resolved (dlsym : Dlsym) (real : real_sysinfo) (info : Sysinfo)
    (hres : dlsym Handle.RTLD_NEXT "sysinfo" = some real) :
    sysinfo dlsym info =
      match real info with
      | Except.error e => Except.error e
      | Except.ok (ret, out) => Except.ok (ret, patch out) := by
  simp only [sysinfo, callPtr, hres]

theorem sysinfo_returns (dlsym : Dlsym) (real : real_sysinfo) (info : Sysinfo)
    (ret : Int) (out : Sysinfo)
    (hres : dlsym Handle.RTLD_NEXT "sysinfo" = some real)
    (hcall : real info = Except.ok (ret, out)) :
    sysinfo dlsym info = Except.ok (ret, patch out) := by
  rw [sysinfo_resolved dlsym real info hres, hcall]

theorem sysinfo_unresolved (dlsym : Dlsym) (info : Sysinfo)
    (hres : dlsym Handle.RTLD_NEXT "sysinfo" = none) :
    sysinfo dlsym info = Except.error Fault.nullCall := by
  simp [sysinfo, callPtr, hres]

theorem resolves_next (f : real_sysinfo) :
    resolves f Handle.RTLD_NEXT "sysinfo" = some f := by
  simp [resolves]

theorem sysinfo_mem_returns (dlsym : Dlsym_mem) (real : real_sysinfo_mem) (info : Sysinfo)
    (mem l m : Memory) (ret : Int) (out : Sysinfo)
    (hres : dlsym Handle.RTLD_NEXT "sysinfo" mem = (some real, l))
    (hcall : real info l = Except.ok (ret, out, m)) :
    sysinfo_mem dlsym info mem = Except.ok (ret, patch out, m) := by
  simp only [sysinfo_mem, hres, callPtr_mem, hcall]

/-- Forgetting the memory turns `sysinfo_mem` into `sysinfo`: the two
embeddings of the function agree on status and record. -/
theorem sysinfo_mem_erase (dlsym : Dlsym_mem) (info : Sysinfo) (mem : Memory) :
    eraseResult (sysinfo_mem dlsym info mem) = sysinfo (eraseDlsym dlsym mem) info := by
  rcases hd : dlsym Handle.RTLD_NEXT "sysinfo" mem with ⟨pt, l⟩
  rcases pt with _ | f
  · simp [sysinfo_mem, sysinfo, eraseDlsym, hd, callPtr_mem, callPtr, eraseResult]
  · rcases hf : f info l with e | ⟨ret, out, m⟩
    · simp [sysinfo_mem, sysinfo, eraseDlsym, eraseReal, hd, hf, callPtr_mem, callPtr,
        eraseResult]
    · simp [sysinfo_mem, sysinfo, eraseDlsym, eraseReal, hd, hf, callPtr_mem, callPtr,
        eraseResult]

theorem resolves_mem_next (f : real_sysinfo_mem) (mem : Memory) :
    resolves_mem f Handle.RTLD_NEXT "sysinfo" mem = (some f, mem) := by
  simp [resolves_mem]

/-! ## The claims of the specification -/

/-- C1: whenever the delegate is resolved, succeeds (status 0) and leaves a
`totalram` strictly below 2,000,000,000 in the record, the shim returns with
the record's `totalram` equal to exactly 2,000,000,000, which is the source's
`1000 * 1000 * 1000 * 2` (decimal megabytes) and not 2000 MiB. -/
theorem sysinfo_floor_applied (dlsym : Dlsym) (real : real_sysinfo) (info : Sysinfo)
    (ret : Int) (out : Sysinfo)
    (hres : dlsym Handle.RTLD_NEXT "sysinfo" = some real)
    (hcall : real info = Except.ok (ret, out))
    (hok : ret = 0)
    (hlt : out.totalram < 2000000000) :
    (∃ info', sysinfo dlsym info = Except.ok (0, info') ∧ info'.totalram = 2000000000) ∧
      FLOOR = 1000 * 1000 * 1000 * 2 ∧ FLOOR ≠ 2000 * 1024 * 1024 := by
  subst hok
  refine ⟨⟨patch out, sysinfo_returns dlsym real info 0 out hres hcall, ?_⟩, ?_, ?_⟩
  · rw [patch_below out hlt]
  · rw [FLOOR_eq]
  · rw [FLOOR_eq]; decide

/-- The scenario of C1: a genuine total of 512,000,000 is reported as
2,000,000,000. -/
theorem sysinfo_floor_applied_witness :
    (∃ info', sysinfo (resolves (realOk 512000000 1)) zeroInfo = Except.ok (0, info') ∧
        info'.totalram = 2000000000) ∧
      FLOOR = 1000 * 1000 * 1000 * 2 ∧ FLOOR ≠ 2000 * 1024 * 1024 :=
  sysinfo_floor_applied (resolves (realOk 512000000 1)) (realOk 512000000 1) zeroInfo 0
    (hostInfo 512000000 1) (resolves_next _) rfl rfl (by decide)

/-- C2: whenever the delegate is resolved and leaves a `totalram` of at least
2,000,000,000 in the record, the shim returns exactly what the delegate
returned: the same status and the same record, so `totalram` (and every other
field) is the delegate's value. The bound is inclusive: 2,000,000,000 itself
is not modified. -/
theorem sysinfo_at_or_above_floor (dlsym : Dlsym) (real : real_sysinfo) (info : Sysinfo)
    (ret : Int) (out : Sysinfo)
    (hres : dlsym Handle.RTLD_NEXT "sysinfo" = some real)
    (hcall : real info = Except.ok (ret, out))
    (hge : 2000000000 ≤ out.totalram) :
    sysinfo dlsym info = Except.ok (ret, out) ∧
      ∃ info', sysinfo dlsym info = Except.ok (ret, info') ∧ info'.totalram = out.totalram := by
  have h : sysinfo dlsym info = Except.ok (ret, out) := by
    rw [sysinfo_returns dlsym real info ret out hres hcall, patch_above out hge]
  exact ⟨h, out, h, rfl⟩

/-- The scenarios of C2: genuine totals of exactly 2,000,000,000 and of
8,000,000,000 come back as the delegate left them. -/
theorem sysinfo_at_or_above_floor_witness :
    sysinfo (resolves (realOk 2000000000 1)) zeroInfo
        = Except.ok (0, hostInfo 2000000000 1) ∧
      sysinfo (resolves (realOk 8000000000 1)) zeroInfo
        = Except.ok (0, hostInfo 8000000000 1) :=
  ⟨(sysinfo_at_or_above_floor (resolves (realOk 2000000000 1)) (realOk 2000000000 1)
      zeroInfo 0 (hostInfo 2000000000 1) (resolves_next _) rfl (by decide)).1,
   (sysinfo_at_or_above_floor (resolves (realOk 8000000000 1)) (realOk 8000000000 1)
      zeroInfo 0 (hostInfo 8000000000 1) (resolves_next _) rfl (by decide)).1⟩

/-- C3: whenever the delegate is resolved and returns, the shim returns, and
its status is the delegate's status, whatever that status is and whether or
not `totalram` was overwritten. -/
theorem sysinfo_status (dlsym : Dlsym) (real : real_sysinfo) (info : Sysinfo)
    (ret : Int) (out : Sysinfo)
    (hres : dlsym Handle.RTLD_NEXT "sysinfo" = some real)
    (hcall : real info = Except.ok (ret, out)) :
    ∃ info', sysinfo dlsym info = Except.ok (ret, info') :=
  ⟨patch out, sysinfo_returns dlsym real info ret out hres hcall⟩

/-- C3 at a failing delegate whose record is overwritten: the status is still
the delegate's `-1`. -/
theorem sysinfo_status_witness :
    ∃ info', sysinfo (resolves realFail) zeroInfo = Except.ok (-1, info') :=
  sysinfo_status (resolves realFail) realFail zeroInfo (-1) zeroInfo (resolves_next _) rfl

/-- C4: whenever the delegate is resolved and returns, every field of the
record other than `totalram` has, when the shim returns, the value the
delegate left in it. -/
theorem sysinfo_frame (dlsym : Dlsym) (real : real_sysinfo) (info : Sysinfo)
    (ret : Int) (out : Sysinfo)
    (hres : dlsym Handle.RTLD_NEXT "sysinfo" = some real)
    (hcall : real info = Except.ok (ret, out)) :
    ∃ info', sysinfo dlsym info = Except.ok (ret, info') ∧
      info'.uptime = out.uptime ∧ info'.loads = out.loads ∧
      info'.freeram = out.freeram ∧ info'.sharedram = out.sharedram ∧
      info'.bufferram = out.bufferram ∧ info'.totalswap = out.totalswap ∧
      info'.freeswap = out.freeswap ∧ info'.procs = out.procs ∧
      info'.totalhigh = out.totalhigh ∧ info'.freehigh = out.freehigh ∧
      info'.mem_unit = out.mem_unit := by
  refine ⟨patch out, sysinfo_returns dlsym real info ret out hres hcall, ?_⟩
  rw [patch_frame out]
  simp

/-- C4 at a delegate whose `totalram` is overwritten: the other fields are
those of the delegate. -/
theorem sysinfo_frame_witness :
    ∃ info', sysinfo (resolves (realOk 512000000 1)) zeroInfo = Except.ok (0, info') ∧
      info'.uptime = 86400 ∧ info'.loads = (2048, 1024, 512) ∧
      info'.freeram = 256000000 ∧ info'.sharedram = 7 ∧
      info'.bufferram = 11 ∧ info'.totalswap = 13 ∧
      info'.freeswap = 5 ∧ info'.procs = 42 ∧
      info'.totalhigh = 0 ∧ info'.freehigh = 0 ∧
      info'.mem_unit = 1 :=
  sysinfo_frame (resolves (realOk 512000000 1)) (realOk 512000000 1) zeroInfo 0
    (hostInfo 512000000 1) (resolves_next _) rfl

/-- C5, as stated, fails: a delegate that returns the error status `-1` and
leaves a record whose `totalram` is 0 has that record patched by the shim,
which returns `-1` with `totalram` set to 2,000,000,000 rather than the record
as the delegate left it. -/
theorem sysinfo_failure_unpatched_counterexample :
    resolves realFail Handle.RTLD_NEXT "sysinfo" = some realFail ∧
      realFail zeroInfo = Except.ok (-1, zeroInfo) ∧
      sysinfo (resolves realFail) zeroInfo
        = Except.ok (-1, { zeroInfo with totalram := 2000000000 }) ∧
      sysinfo (resolves realFail) zeroInfo ≠ Except.ok (-1, zeroInfo) := by
  have h : sysinfo (resolves realFail) zeroInfo
      = Except.ok (-1, { zeroInfo with totalram := 2000000000 }) := by
    rw [sysinfo_returns (resolves realFail) realFail zeroInfo (-1) zeroInfo
      (resolves_next _) rfl, patch_below zeroInfo (by decide)]
  refine ⟨resolves_next _, rfl, h, ?_⟩
  rw [h]
  simp [zeroInfo]

/-- C5, amended: whenever the delegate is resolved and returns an error status
(non-zero), the shim returns that same status, and the record is the one the
delegate left except that its `totalram` is raised to 2,000,000,000 when it is
below that value: the patch is applied whatever the status. A record whose
`totalram` is already at least 2,000,000,000 is left exactly as the delegate
left it. -/
theorem sysinfo_failure_patched (dlsym : Dlsym) (real : real_sysinfo) (info : Sysinfo)
    (ret : Int) (out : Sysinfo)
    (hres : dlsym Handle.RTLD_NEXT "sysinfo" = some real)
    (hcall : real info = Except.ok (ret, out))
    (herr : ret ≠ 0) :
    ret ≠ 0 ∧
      sysinfo dlsym info
        = Except.ok (ret, { out with totalram := max out.totalram 2000000000 }) ∧
      (2000000000 ≤ out.totalram → sysinfo dlsym info = Except.ok (ret, out)) := by
  have h := sysinfo_returns dlsym real info ret out hres hcall
  refine ⟨herr, ?_, ?_⟩
  · rw [h, patch_frame out, patch_totalram]
  · intro hge
    rw [h, patch_above out hge]

/-- C5, amended, at the failing delegate that leaves the record as it got it:
the status is `-1` and `totalram` is raised from 0 to 2,000,000,000. -/
theorem sysinfo_failure_patched_witness :
    (-1 : Int) ≠ 0 ∧
      sysinfo (resolves realFail) zeroInfo
        = Except.ok (-1, { zeroInfo with totalram := max zeroInfo.totalram 2000000000 }) ∧
      (2000000000 ≤ zeroInfo.totalram →
        sysinfo (resolves realFail) zeroInfo = Except.ok (-1, zeroInfo)) :=
  sysinfo_failure_patched (resolves realFail) realFail zeroInfo (-1) zeroInfo
    (resolves_next _) rfl (by decide)

/-- C6, as stated, fails: a genuine total of 1,000,000 units of 4096 bytes is
4,096,000,000 bytes, above the floor, and the shim overwrites `totalram` with
2,000,000,000 all the same, since it compares the field itself. -/
theorem sysinfo_bytes_counterexample :
    resolves (realOk 1000000 4096) Handle.RTLD_NEXT "sysinfo" = some (realOk 1000000 4096) ∧
      realOk 1000000 4096 zeroInfo = Except.ok (0, hostInfo 1000000 4096) ∧
      2000000000 ≤ (hostInfo 1000000 4096).totalram * (hostInfo 1000000 4096).mem_unit ∧
      sysinfo (resolves (realOk 1000000 4096)) zeroInfo
        = Except.ok (0, { hostInfo 1000000 4096 with totalram := 2000000000 }) ∧
      ({ hostInfo 1000000 4096 with totalram := 2000000000 } : Sysinfo).totalram
        ≠ (hostInfo 1000000 4096).totalram := by
  refine ⟨resolves_next _, rfl, by decide, ?_, by decide⟩
  rw [sysinfo_returns (resolves (realOk 1000000 4096)) (realOk 1000000 4096) zeroInfo 0
    (hostInfo 1000000 4096) (resolves_next _) rfl, patch_below _ (by decide)]

/-- C6, amended: the comparison is made on the `totalram` field as it stands,
`mem_unit` is not read. Whenever the delegate is resolved and returns a record
whose total in bytes, `totalram * mem_unit`, is at least 2,000,000,000, the
shim leaves `totalram` unchanged if the field itself is at least
2,000,000,000, and overwrites it with 2,000,000,000 if the field itself is
below. -/
theorem sysinfo_raw_comparison (dlsym : Dlsym) (real : real_sysinfo) (info : Sysinfo)
    (ret : Int) (out : Sysinfo)
    (hres : dlsym Handle.RTLD_NEXT "sysinfo" = some real)
    (hcall : real info = Except.ok (ret, out))
    (hbytes : 2000000000 ≤ out.totalram * out.mem_unit) :
    2000000000 ≤ out.totalram * out.mem_unit ∧
      ∃ info', sysinfo dlsym info = Except.ok (ret, info') ∧
        (2000000000 ≤ out.totalram → info'.totalram = out.totalram) ∧
        (out.totalram < 2000000000 → info'.totalram = 2000000000) := by
  refine ⟨hbytes, patch out, sysinfo_returns dlsym real info ret out hres hcall, ?_, ?_⟩
  · intro hge
    rw [patch_above out hge]
  · intro hlt
    rw [patch_below out hlt]

/-- C6, amended, at 1,000,000 units of 4096 bytes. -/
theorem sysinfo_raw_comparison_witness :
    2000000000 ≤ (hostInfo 1000000 4096).totalram * (hostInfo 1000000 4096).mem_unit ∧
      ∃ info', sysinfo (resolves (realOk 1000000 4096)) zeroInfo = Except.ok (0, info') ∧
        (2000000000 ≤ (hostInfo 1000000 4096).totalram →
          info'.totalram = (hostInfo 1000000 4096).totalram) ∧
        ((hostInfo 1000000 4096).totalram < 2000000000 → info'.totalram = 2000000000) :=
  sysinfo_raw_comparison (resolves (realOk 1000000 4096)) (realOk 1000000 4096) zeroInfo 0
    (hostInfo 1000000 4096) (resolves_next _) rfl (by decide)

/-- C7: whenever the delegate is resolved and returns a record whose
`mem_unit` is at least 1, the total the shim reports, in bytes
(`totalram * mem_unit`), is at least 2,000,000,000. -/
theorem sysinfo_floor_invariant (dlsym : Dlsym) (real : real_sysinfo) (info : Sysinfo)
    (ret : Int) (out : Sysinfo)
    (hres : dlsym Handle.RTLD_NEXT "sysinfo" = some real)
    (hcall : real info = Except.ok (ret, out))
    (hunit : 1 ≤ out.mem_unit) :
    ∃ info', sysinfo dlsym info = Except.ok (ret, info') ∧
      2000000000 ≤ info'.totalram * info'.mem_unit := by
  refine ⟨patch out, sysinfo_returns dlsym real info ret out hres hcall, ?_⟩
  have hu : (patch out).mem_unit = out.mem_unit := by
    rw [patch_frame out]
  have ht : 2000000000 ≤ (patch out).totalram := by
    rw [patch_totalram]
    exact Nat.le_max_right _ _
  rw [hu]
  calc 2000000000 ≤ (patch out).totalram := ht
    _ = (patch out).totalram * 1 := (Nat.mul_one _).symm
    _ ≤ (patch out).totalram * out.mem_unit := Nat.mul_le_mul_left _ hunit

/-- C7 at a genuine total of 512,000,000 bytes in units of one byte. -/
theorem sysinfo_floor_invariant_witness :
    ∃ info', sysinfo (resolves (realOk 512000000 1)) zeroInfo = Except.ok (0, info') ∧
      2000000000 ≤ info'.totalram * info'.mem_unit :=
  sysinfo_floor_invariant (resolves (realOk 512000000 1)) (realOk 512000000 1) zeroInfo 0
    (hostInfo 512000000 1) (resolves_next _) rfl (by decide)

/-- C8, as stated, fails: when the lookup yields `NULL` the shim makes the call
through the pointer all the same. At a linker that resolves nothing, the call
through the pointer is the call through `NULL`, the shim's outcome is that
fault, and no status, of success or of error, is returned. -/
theorem sysinfo_unresolved_counterexample :
    unresolved Handle.RTLD_NEXT "sysinfo" = none ∧
      callPtr (unresolved Handle.RTLD_NEXT "sysinfo") zeroInfo
        = Except.error Fault.nullCall ∧
      sysinfo unresolved zeroInfo = Except.error Fault.nullCall ∧
      ¬ ∃ status info', sysinfo unresolved zeroInfo = Except.ok (status, info') := by
  have h : sysinfo unresolved zeroInfo = Except.error Fault.nullCall :=
    sysinfo_unresolved unresolved zeroInfo rfl
  refine ⟨rfl, rfl, h, ?_⟩
  rintro ⟨status, info', hret⟩
  rw [h] at hret
  cases hret

/-- C8, amended: when the lookup of the original implementation yields `NULL`,
the shim makes no check and calls through the null pointer: its outcome is
that of the call through `NULL` (no defined result in C, the fault `nullCall`
here), it returns no status, neither success nor error, and the record is not
patched. -/
theorem sysinfo_unresolved_faults (dlsym : Dlsym) (info : Sysinfo)
    (hres : dlsym Handle.RTLD_NEXT "sysinfo" = none) :
    sysinfo dlsym info = callPtr (dlsym Handle.RTLD_NEXT "sysinfo") info ∧
      sysinfo dlsym info = Except.error Fault.nullCall ∧
      ∀ status info', sysinfo dlsym info ≠ Except.ok (status, info') := by
  have h : sysinfo dlsym info = Except.error Fault.nullCall :=
    sysinfo_unresolved dlsym info hres
  refine ⟨?_, h, ?_⟩
  · rw [h, hres]
    rfl
  · intro status info' hret
    rw [h] at hret
    cases hret

/-- C8, amended, at a linker that resolves nothing. -/
theorem sysinfo_unresolved_faults_witness :
    sysinfo unresolved zeroInfo = callPtr (unresolved Handle.RTLD_NEXT "sysinfo") zeroInfo ∧
      sysinfo unresolved zeroInfo = Except.error Fault.nullCall ∧
      ∀ status info', sysinfo unresolved zeroInfo ≠ Except.ok (status, info') :=
  sysinfo_unresolved_faults unresolved zeroInfo rfl

/-- C9: the shim is stateless. Take two invocations in the memory of the
process, from any two memories (so also the second from the memory the first
left), with any linkers, delegates and incoming records, on which the
delegates return the same status and leave the same record contents. Then both
return that status and the same final record; that record is the delegate's
with the floor applied exactly when the delegate's `totalram` is below
2,000,000,000, so the decision is the same in both and depends on nothing
else; and each invocation leaves the memory exactly as its delegate left it,
so nothing is retained for a later call. -/
theorem sysinfo_stateless (dlsym₁ dlsym₂ : Dlsym_mem) (real₁ real₂ : real_sysinfo_mem)
    (info₁ info₂ : Sysinfo) (mem₁ mem₂ l₁ l₂ m₁ m₂ : Memory)
    (ret₁ ret₂ : Int) (out₁ out₂ : Sysinfo)
    (hres₁ : dlsym₁ Handle.RTLD_NEXT "sysinfo" mem₁ = (some real₁, l₁))
    (hres₂ : dlsym₂ Handle.RTLD_NEXT "sysinfo" mem₂ = (some real₂, l₂))
    (hcall₁ : real₁ info₁ l₁ = Except.ok (ret₁, out₁, m₁))
    (hcall₂ : real₂ info₂ l₂ = Except.ok (ret₂, out₂, m₂))
    (hret : ret₁ = ret₂) (hout : out₁ = out₂) :
    ∃ info',
      sysinfo_mem dlsym₁ info₁ mem₁ = Except.ok (ret₁, info', m₁) ∧
      sysinfo_mem dlsym₂ info₂ mem₂ = Except.ok (ret₁, info', m₂) ∧
      info' = (if out₁.totalram < 2000000000
        then { out₁ with totalram := 2000000000 } else out₁) := by
  subst hret hout
  refine ⟨patch out₁, sysinfo_mem_returns dlsym₁ real₁ info₁ mem₁ l₁ m₁ ret₁ out₁ hres₁ hcall₁,
    sysinfo_mem_returns dlsym₂ real₂ info₂ mem₂ l₂ m₂ ret₁ out₁ hres₂ hcall₂, ?_⟩
  rcases Nat.lt_or_ge out₁.totalram 2000000000 with h | h
  · rw [patch_below out₁ h, if_pos h]
  · rw [patch_above out₁ h, if_neg (by omega)]

/-- C9 at two invocations in succession whose delegate keeps state of its own
(it counts its calls in memory): the second invocation starts from the memory
the first one left, with another incoming record, and returns the same status
and the same record, with the floor applied. -/
theorem sysinfo_stateless_witness :
    ∃ info',
      sysinfo_mem (resolves_mem realCounting) zeroInfo zeroMemory
        = Except.ok (0, info', bump zeroMemory) ∧
      sysinfo_mem (resolves_mem realCounting) (hostInfo 8000000000 4096) (bump zeroMemory)
        = Except.ok (0, info', bump (bump zeroMemory)) ∧
      info' = (if (hostInfo 512000000 1).totalram < 2000000000
        then { hostInfo 512000000 1 with totalram := 2000000000 }
        else hostInfo 512000000 1) :=
  sysinfo_stateless (resolves_mem realCounting) (resolves_mem realCounting)
    realCounting realCounting zeroInfo (hostInfo 8000000000 4096)
    zeroMemory (bump zeroMemory) zeroMemory (bump zeroMemory)
    (bump zeroMemory) (bump (bump zeroMemory)) 0 0
    (hostInfo 512000000 1) (hostInfo 512000000 1)
    (resolves_mem_next _ _) (resolves_mem_next _ _) rfl rfl rfl rfl

/-- C10: the floor patch is idempotent, it sets `totalram` to the maximum of
the genuine value and 2,000,000,000 and so never lowers it, and a shim whose
delegate is another copy of the shim gives exactly the outcome of that single
copy. -/
theorem patch_idempotent_stacked (dlsym outer : Dlsym) (info r : Sysinfo)
    (hres : outer Handle.RTLD_NEXT "sysinfo" = some (sysinfo dlsym)) :
    patch (patch r) = patch r ∧
      (patch r).totalram = max r.totalram 2000000000 ∧
      r.totalram ≤ (patch r).totalram ∧
      sysinfo outer info = sysinfo dlsym info := by
  refine ⟨patch_patch r, patch_totalram r, ?_, ?_⟩
  · rw [patch_totalram]
    exact Nat.le_max_left _ _
  · rw [sysinfo_resolved outer (sysinfo dlsym) info hres]
    rcases hin : sysinfo dlsym info with e | ⟨ret, out⟩
    · rfl
    · have hp : patch out = out := by
        rcases hpt : dlsym Handle.RTLD_NEXT "sysinfo" with _ | real
        · rw [sysinfo_unresolved dlsym info hpt] at hin
          cases hin
        · rw [sysinfo_resolved dlsym real info hpt] at hin
          rcases hreal : real info with e | ⟨ret', out'⟩
          · rw [hreal] at hin
            cases hin
          · rw [hreal] at hin
            cases hin
            exact patch_patch out'
      simp only [hp]

/-- C10 at a shim stacked on a shim whose delegate reports 512,000,000. -/
theorem patch_idempotent_stacked_witness :
    patch (patch (hostInfo 512000000 1)) = patch (hostInfo 512000000 1) ∧
      (patch (hostInfo 512000000 1)).totalram
        = max (hostInfo 512000000 1).totalram 2000000000 ∧
      (hostInfo 512000000 1).totalram ≤ (patch (hostInfo 512000000 1)).totalram ∧
      sysinfo (resolves (sysinfo (resolves (realOk 512000000 1)))) zeroInfo
        = sysinfo (resolves (realOk 512000000 1)) zeroInfo :=
  patch_idempotent_stacked (resolves (realOk 512000000 1))
    (resolves (sysinfo (resolves (realOk 512000000 1)))) zeroInfo (hostInfo 512000000 1)
    (resolves_next _)

end Wrapper
